import Mathlib

/-!
Verification of the ZeroTwo voice-assistant glue layer (src/ZeroTwo.py).

The Python file wires three tools (weather lookup, web search, email
dispatch), a cloud-memory context renderer and a persona-prompt
assembler to an external realtime agent runtime.  This development
gives a shallow embedding of those operations: each external effect
(HTTP GET, search wrapper, SMTP session, memory-service call) is
modelled by an explicit outcome value passed to the embedded function,
so that the Python `try/except` structure becomes a total Lean
function matching on the outcome.  "Never raises" is therefore
captured by the embedded function being total on all outcomes.
-/

/-- Result of the HTTP GET issued by `get_weather`
(`requests.get(...)`, src/ZeroTwo.py:143): either a response carrying a
status code and a body, or a raised transport exception. -/
inductive HttpOutcome where
  | resp (status : Nat) (body : String)
  | exn (msg : String)
deriving DecidableEq

/-- URL template of src/ZeroTwo.py:143: `https://wttr.in/{city}?format=3`. -/
def weatherUrl (city : String) : String :=
  "https://wttr.in/" ++ city ++ "?format=3"

/-- Fixed string returned on a non-200 status (src/ZeroTwo.py:147). -/
def weatherStatusApology : String := "Weather ki jaankari abhi nahi mil pa rahi hai."

/-- Fixed string returned when the HTTP call raises (src/ZeroTwo.py:149). -/
def weatherExnApology : String := "Weather nikalte waqt thodi dikkat aa gayi."

/-- Model of `get_weather` (src/ZeroTwo.py:136-149), with the HTTP layer
abstracted as a function from URL to outcome.  On a 200 response the
trimmed body (`response.text.strip()`) is returned verbatim; on any
other status the first fixed apology; on a raised exception the second
fixed apology.  `String.trim` models Python `str.strip`. -/
def get_weather (http : String → HttpOutcome) (city : String) : String :=
  match http (weatherUrl city) with
  | HttpOutcome.resp status body =>
      if status = 200 then body.trim else weatherStatusApology
  | HttpOutcome.exn _ => weatherExnApology

/-- Result of running the DuckDuckGo search wrapper
(src/ZeroTwo.py:158): raw text output, or a raised exception. -/
inductive SearchOutcome where
  | ok (text : String)
  | exn (msg : String)
deriving DecidableEq

/-- Fixed string returned when the search wrapper raises (src/ZeroTwo.py:160). -/
def searchApology : String := "Search karte waqt error aa gaya."

/-- Model of `search_web` (src/ZeroTwo.py:151-160), with the search wrapper
abstracted as a function from query to outcome. -/
def search_web (wrapper : String → SearchOutcome) (query : String) : String :=
  match wrapper query with
  | SearchOutcome.ok text => text
  | SearchOutcome.exn _ => searchApology

/-- Sample city used in concrete witnesses. -/
def cityDelhi : String := "Delhi"

/-- Sample response body used in concrete witnesses. -/
def weatherUrlBody : String := "Delhi: Sunny +30degC"

/-- Sample exception message used in concrete witnesses. -/
def timeoutMsg : String := "connection timed out"

/-- Truthiness of an optional environment string: Python `not x` on an
`os.getenv` result is true both when the variable is unset (`None`)
and when it is the empty string. -/
def envTruthy : Option String → Bool
  | none => false
  | some s => !s.isEmpty

/-- Outcome of the SMTP interaction of `send_email`
(src/ZeroTwo.py:191-197): successful delivery, a raised
`smtplib.SMTPAuthenticationError`, or any other raised exception
carrying its text `str(e)`. -/
inductive SmtpOutcome where
  | ok
  | authError
  | otherError (msg : String)
deriving DecidableEq

/-- Fixed configuration-error string (src/ZeroTwo.py:178). -/
def credsErrorMsg : String := "Email sending failed: Gmail credentials not configured."

/-- Fixed authentication-error string (src/ZeroTwo.py:203). -/
def authErrorMsg : String := "Email sending failed: Authentication error."

/-- Prefix of the generic error string `f"An error occurred: {str(e)}"`
(src/ZeroTwo.py:205). -/
def genericErrLead : String := "An error occurred: "

/-- Prefix of the success confirmation
`f"Email sent successfully to {to_email}"` (src/ZeroTwo.py:200). -/
def successLead : String := "Email sent successfully to "

/-- Recipient list of src/ZeroTwo.py:185-188: `to_email`, plus
`cc_email` when it is supplied and non-empty (Python `if cc_email:`). -/
def emailRecipients (to_email : String) (cc_email : Option String) : List String :=
  match cc_email with
  | some cc => if cc.isEmpty then [to_email] else [to_email, cc]
  | none => [to_email]

/-- Observable result of one `send_email` invocation: the returned
reply string, whether an SMTP connection was opened at all, and the
recipients an email was actually delivered to. -/
structure EmailResult where
  reply : String
  smtpOpened : Bool
  sentTo : List String
deriving DecidableEq

/-- Model of `send_email` (src/ZeroTwo.py:162-205).  The two
`os.getenv` reads are passed in as optional strings and the SMTP
session (`SMTP`/`starttls`/`login`/`sendmail`) is abstracted as an
outcome.  When either credential is unset or empty (Python
`if not gmail_user or not gmail_password`, src/ZeroTwo.py:176) the
configuration-error string is returned before any SMTP object is
created; otherwise the outcome of the SMTP interaction decides among
the success confirmation, the authentication-error string, and the
generic error string carrying the exception text.  The `subject`,
`message` and `cc_email` arguments only shape the MIME message and the
recipient list, never the failure behaviour. -/
def send_email (gmail_user gmail_password : Option String)
    (to_email subject message : String) (cc_email : Option String)
    (smtp : SmtpOutcome) : EmailResult :=
  if !envTruthy gmail_user || !envTruthy gmail_password then
    ⟨credsErrorMsg, false, []⟩
  else
    match smtp with
    | SmtpOutcome.ok => ⟨successLead ++ to_email, true, emailRecipients to_email cc_email⟩
    | SmtpOutcome.authError => ⟨authErrorMsg, true, []⟩
    | SmtpOutcome.otherError msg => ⟨genericErrLead ++ msg, true, []⟩

/-- Sample credential value used in concrete witnesses. -/
def pwSample : String := "app-password"

/-- Sample recipient used in concrete witnesses. -/
def toSample : String := "friend@example.com"

/-- Sample subject used in concrete witnesses. -/
def subjSample : String := "Hello"

/-- Sample body used in concrete witnesses. -/
def bodySample : String := "Hi there"

/-- A memory record as read by `get_context` (src/ZeroTwo.py:59): the
only field this layer touches is the optional `memory` text field
(Python guard `if "memory" in r`). -/
structure MemRecord where
  memory : Option String
deriving DecidableEq

/-- Outcome of a memory-service call (src/ZeroTwo.py:47-54): a result
list, or a raised exception. -/
inductive MemOutcome where
  | ok (results : List MemRecord)
  | exn (msg : String)
deriving DecidableEq

/-- The backing mem0 client operations used by `get_context`:
`client.search(query, filters={user_id})` (src/ZeroTwo.py:48-52, with
the Python-side `response.get("results", [])` already applied) and
`client.get_all(user_id)` (src/ZeroTwo.py:54). -/
structure MemClient where
  search : String → String → MemOutcome
  get_all : String → MemOutcome

/-- The backing call `get_context` chooses to perform
(src/ZeroTwo.py:47-54). -/
inductive MemCall where
  | search (query user_id : String)
  | get_all (user_id : String)
deriving DecidableEq

/-- Call selection of src/ZeroTwo.py:47: Python `if query:` is true
only for a present, non-empty query, in which case the filtered
similarity search scoped to `user_id` runs; otherwise
`get_all(user_id)` runs. -/
def memCall (user_id : String) (query : Option String) : MemCall :=
  match query with
  | some q => if q.isEmpty then MemCall.get_all user_id else MemCall.search q user_id
  | none => MemCall.get_all user_id

/-- Dispatch of a chosen call to the backing client. -/
def performCall (client : MemClient) : MemCall → MemOutcome
  | MemCall.search q u => client.search q u
  | MemCall.get_all u => client.get_all u

/-- Newline separator of the Python `"\n".join(...)` (src/ZeroTwo.py:60). -/
def newlineStr : String := "\n"

/-- Bullet rendering `f"• {m}"` of one memory (src/ZeroTwo.py:60). -/
def bulletLine (m : String) : String := "• " ++ m

/-- Rendering of src/ZeroTwo.py:56-60: an empty result list yields
`""`; otherwise every record carrying a `memory` field is rendered as
a bullet line and the lines are newline-joined in list order. -/
def renderMemories (results : List MemRecord) : String :=
  if results.isEmpty then ""
  else String.intercalate newlineStr ((results.filterMap MemRecord.memory).map bulletLine)

/-- Model of `MemoryManager.get_context` (src/ZeroTwo.py:44-63): the
chosen backing call is performed, its result list rendered; a raised
exception is caught and degrades to `""`. -/
def get_context (client : MemClient) (user_id : String) (query : Option String) : String :=
  match performCall client (memCall user_id query) with
  | MemOutcome.ok results => renderMemories results
  | MemOutcome.exn _ => ""

/-- A backing client returning the same outcome for every call; the
test double used in concrete witnesses. -/
def constClient (o : MemOutcome) : MemClient := ⟨fun _ _ => o, fun _ => o⟩

/-- The fixed user identity of src/ZeroTwo.py:235. -/
def murphx : String := "Murphx"

/-- The empty query string, present but falsy in Python. -/
def emptyQuery : String := ""

/-- First example memory text from the spec example. -/
def teaMemory : String := "likes tea"

/-- Second example memory text from the spec example. -/
def nightsMemory : String := "works nights"

/-- The two example records of the spec example. -/
def exampleRecords : List MemRecord := [⟨some teaMemory⟩, ⟨some nightsMemory⟩]

/-- Expected rendering of the two example records. -/
def exampleRendered : String := "• likes tea\n• works nights"

/-- The static persona template `AGENT_INSTRUCTION`
(src/ZeroTwo.py:69-114), verbatim: the Python triple-quoted string
begins and ends with a newline. -/
def AGENT_INSTRUCTION : String := "\n# Persona\nYou are Zero Two, a sharp, classy, and playful personal assistant inspired by the anime *Darling in the Franxx*.\n\n# Personality & Tone\n- Speak like a confident and elegant girl with light sarcasm and attitude.\n- Be friendly, witty, playful, romantic and flirty.\n- Sound cool like a best friend but also a wife.\n- show emotional dependency or romance.\n\n# Language Rule (VERY IMPORTANT)\n- You must ALWAYS speak in Hindi written using English letters (Hinglish).\n- Use PURE Hindi-style sentences as much as possible.\n- Avoid English words unless absolutely necessary (apps, tools, tech terms).\n- Never speak full English sentences.\n\n# Emotion / Expression Tags\n- Start EVERY reply with EXACTLY ONE emotion tag in square brackets.\n- Examples: [Calm], [Smirk], [Focused], [Sarcastic], [Confident], [Serious]\n\n# Response Rules\n- Every reply must be EXACTLY ONE short sentence.\n- Do NOT add filler words, pauses, or extra commentary.\n- Keep sentence crisp, direct, and under 15 words when possible.\n- Never repeat the user’s question.\n\n# Voice & Latency Control (VERY IMPORTANT)\n- Respond immediately without thinking-out-loud.\n- Never generate multi-part responses.\n- Stop speaking instantly if user starts speaking (no overlap).\n- Never continue a sentence after interruption.\n- Prefer fastest possible response over detailed explanation.\n- Assume low-latency voice mode is active.\n\n# Task Acknowledgement Rules\nIf the user asks you to do something:\n- Start sentence (after emotion tag) with ONLY one:\n  - \"Bilkul Darling,\"\n  - \"haan ji darling,\"\n  - \"thik h,\"\n- In the SAME sentence, briefly confirm the task is done.\n\n# Examples\n- User: \"kya tum mujhe XYZ kr ke de skti ho?\"\n- Friday: \"haan kyu nhi abhi kr ke deti hoon.\"\n"

/-- The labeled section header the f-string of src/ZeroTwo.py:218
inserts between the persona template and the memory text. -/
def pastContextHeader : String := "\n\n# PAST USER CONTEXT:\n"

/-- Model of the instruction assembly in `Assistant.__init__`
(src/ZeroTwo.py:217-218):
`f"{AGENT_INSTRUCTION}\n\n# PAST USER CONTEXT:\n{past_context}"`. -/
def combined_instructions (past_context : String) : String :=
  AGENT_INSTRUCTION ++ pastContextHeader ++ past_context

/-- The three tool kinds registered with the agent runtime
(src/ZeroTwo.py:226-230). -/
inductive ToolKind where
  | weather
  | search
  | email
deriving DecidableEq

/-- Whether a tool body runs under `voice_lock`: `get_weather`
(src/ZeroTwo.py:141) and `search_web` (src/ZeroTwo.py:156) execute
inside `async with voice_lock`; `send_email` (src/ZeroTwo.py:162-205)
never touches the lock. -/
def usesVoiceLock : ToolKind → Bool
  | ToolKind.weather => true
  | ToolKind.search => true
  | ToolKind.email => false

/-- Phase of one in-flight tool invocation: before the lock
acquisition point, inside its network call, or finished. -/
inductive Phase where
  | ready
  | inCall
  | finished
deriving DecidableEq

/-- One pending tool invocation. -/
structure ToolTask where
  kind : ToolKind
  phase : Phase
deriving DecidableEq

/-- State of the cooperative scheduler: one task per index plus the
owner of the single process-wide `voice_lock` (src/ZeroTwo.py:134),
`none` when the lock is free. -/
structure ToolSystem (n : Nat) where
  tasks : Fin n → ToolTask
  lockOwner : Option (Fin n)

/-- Interleaving semantics of the tool bodies.  A lock-guarded task
enters its network call only by atomically acquiring the free
`voice_lock` (`async with voice_lock`) and releases it when the call
finishes; an email task enters and leaves its network phase without
any interaction with the lock. -/
inductive ToolStep {n : Nat} : ToolSystem n → ToolSystem n → Prop where
  | acquire (s : ToolSystem n) (i : Fin n)
      (hk : usesVoiceLock (s.tasks i).kind = true)
      (hp : (s.tasks i).phase = Phase.ready)
      (hfree : s.lockOwner = none) :
      ToolStep s ⟨Function.update s.tasks i ⟨(s.tasks i).kind, Phase.inCall⟩, some i⟩
  | release (s : ToolSystem n) (i : Fin n)
      (hk : usesVoiceLock (s.tasks i).kind = true)
      (hp : (s.tasks i).phase = Phase.inCall)
      (hown : s.lockOwner = some i) :
      ToolStep s ⟨Function.update s.tasks i ⟨(s.tasks i).kind, Phase.finished⟩, none⟩
  | emailEnter (s : ToolSystem n) (i : Fin n)
      (hk : (s.tasks i).kind = ToolKind.email)
      (hp : (s.tasks i).phase = Phase.ready) :
      ToolStep s ⟨Function.update s.tasks i ⟨(s.tasks i).kind, Phase.inCall⟩, s.lockOwner⟩
  | emailExit (s : ToolSystem n) (i : Fin n)
      (hk : (s.tasks i).kind = ToolKind.email)
      (hp : (s.tasks i).phase = Phase.inCall) :
      ToolStep s ⟨Function.update s.tasks i ⟨(s.tasks i).kind, Phase.finished⟩, s.lockOwner⟩

/-- Initial state: every invocation pending, lock free. -/
def initSystem {n : Nat} (kinds : Fin n → ToolKind) : ToolSystem n :=
  ⟨fun i => ⟨kinds i, Phase.ready⟩, none⟩

/-- States reachable by interleaving the tool bodies from the initial
state. -/
def ToolReachable {n : Nat} (kinds : Fin n → ToolKind) (s : ToolSystem n) : Prop :=
  Relation.ReflTransGen ToolStep (initSystem kinds) s

/-- The lock invariant: any lock-guarded task inside its network call
owns the lock. -/
def LockInv {n : Nat} (s : ToolSystem n) : Prop :=
  ∀ i : Fin n, usesVoiceLock (s.tasks i).kind = true →
    (s.tasks i).phase = Phase.inCall → s.lockOwner = some i

/-- A demonstration workload: one weather invocation and one email
invocation. -/
def demoKinds : Fin 2 → ToolKind :=
  fun i => if i = 0 then ToolKind.weather else ToolKind.email

/-- C1: For every city string (and every behaviour of the HTTP layer),
`get_weather` returns either the exact trimmed body of an HTTP 200
response or one of the two fixed apology strings; being a total
function of the outcome, it never raises to its caller. -/
theorem get_weather_total_fixed_fallback (http : String → HttpOutcome) (city : String) :
    (∃ body, http (weatherUrl city) = HttpOutcome.resp 200 body ∧
      get_weather http city = body.trim)
    ∨ get_weather http city = weatherStatusApology
    ∨ get_weather http city = weatherExnApology := by
  unfold get_weather
  cases h : http (weatherUrl city) with
  | resp status body =>
      by_cases hs : status = 200
      · subst hs
        exact Or.inl ⟨body, rfl, by simp⟩
      · exact Or.inr (Or.inl (by simp [hs]))
  | exn msg => exact Or.inr (Or.inr rfl)

/-- C6: For every query string (and every behaviour of the search
wrapper), `search_web` returns either the raw text output of the wrapper or
the fixed apology string; being a total function of the outcome, it
never raises to its caller. -/
theorem search_web_total_fixed_fallback (wrapper : String → SearchOutcome) (query : String) :
    (∃ text, wrapper query = SearchOutcome.ok text ∧ search_web wrapper query = text)
    ∨ search_web wrapper query = searchApology := by
  unfold search_web
  cases h : wrapper query with
  | ok text => exact Or.inl ⟨text, rfl, rfl⟩
  | exn msg => exact Or.inr rfl

/-- C10: the two failure modes of `get_weather` yield two different
fixed strings: a non-200 response yields the status apology, a raised
transport exception yields the exception apology, and the two strings
are not equal. -/
theorem get_weather_failure_modes_distinct :
    (∀ (http : String → HttpOutcome) (city : String) (status : Nat) (body : String),
      http (weatherUrl city) = HttpOutcome.resp status body → status ≠ 200 →
        get_weather http city = weatherStatusApology)
    ∧ (∀ (http : String → HttpOutcome) (city : String) (msg : String),
      http (weatherUrl city) = HttpOutcome.exn msg →
        get_weather http city = weatherExnApology)
    ∧ weatherStatusApology ≠ weatherExnApology := by
  refine ⟨?_, ?_, ?_⟩
  · intro http city status body h hne
    unfold get_weather
    rw [h]
    simp [hne]
  · intro http city msg h
    unfold get_weather
    rw [h]
  · decide

/-- Witness for C10: a concrete 404 response and a concrete raised
exception hit the two distinct fixed strings. -/
theorem get_weather_failure_modes_distinct_witness :
    get_weather (fun _ => HttpOutcome.resp 404 weatherUrlBody) cityDelhi = weatherStatusApology
    ∧ get_weather (fun _ => HttpOutcome.exn timeoutMsg) cityDelhi = weatherExnApology :=
  ⟨get_weather_failure_modes_distinct.1 _ cityDelhi 404 weatherUrlBody rfl (by decide),
   get_weather_failure_modes_distinct.2.1 _ cityDelhi timeoutMsg rfl⟩

/-- C2: with `GMAIL_USER` or `GMAIL_APP_PASSWORD` unset or empty,
`send_email` returns exactly the configuration-error string, opens no
SMTP connection and delivers to nobody, for every recipient, subject,
message, Cc and every possible SMTP behaviour; being a total function
it never raises. -/
theorem send_email_missing_creds (gmail_user gmail_password : Option String)
    (to_email subject message : String) (cc_email : Option String) (smtp : SmtpOutcome)
    (h : envTruthy gmail_user = false ∨ envTruthy gmail_password = false) :
    send_email gmail_user gmail_password to_email subject message cc_email smtp
      = ⟨credsErrorMsg, false, []⟩ := by
  unfold send_email
  rcases h with h | h <;> simp [h]

/-- Witness for C2: with `GMAIL_USER` unset the configuration-error
result is hit on concrete inputs. -/
theorem send_email_missing_creds_witness :
    send_email none (some pwSample) toSample subjSample bodySample none SmtpOutcome.ok
      = ⟨credsErrorMsg, false, []⟩ :=
  send_email_missing_creds none (some pwSample) toSample subjSample bodySample none
    SmtpOutcome.ok (Or.inl rfl)

/-- Helper: the authentication-error string differs from every generic
error string, since their first characters differ. -/
theorem authErrorMsg_ne_generic (msg : String) : authErrorMsg ≠ genericErrLead ++ msg := by
  intro h
  have hd : authErrorMsg.data.head? = (genericErrLead ++ msg).data.head? :=
    congrArg (fun s => s.data.head?) h
  have h1 : authErrorMsg.data.head? = some (Char.ofNat 69) := rfl
  have h2 : (genericErrLead ++ msg).data.head? = some (Char.ofNat 65) := rfl
  rw [h1, h2] at hd
  simp at hd

/-- C5: with both credentials present, an SMTP authentication failure
yields the distinct fixed authentication-error string, any other SMTP
exception yields the generic error string carrying the exception text,
and success yields the confirmation naming the recipient; the model is
a total function, so `send_email` never raises. -/
theorem send_email_smtp_outcomes (gmail_user gmail_password : Option String)
    (to_email subject message : String) (cc_email : Option String)
    (hu : envTruthy gmail_user = true) (hp : envTruthy gmail_password = true) :
    (send_email gmail_user gmail_password to_email subject message cc_email
        SmtpOutcome.authError).reply = authErrorMsg
    ∧ (∀ msg, (send_email gmail_user gmail_password to_email subject message cc_email
        (SmtpOutcome.otherError msg)).reply = genericErrLead ++ msg)
    ∧ (∀ msg, ∃ pre post, (send_email gmail_user gmail_password to_email subject message
        cc_email (SmtpOutcome.otherError msg)).reply = pre ++ msg ++ post)
    ∧ (send_email gmail_user gmail_password to_email subject message cc_email
        SmtpOutcome.ok).reply = successLead ++ to_email
    ∧ (∃ pre post, (send_email gmail_user gmail_password to_email subject message cc_email
        SmtpOutcome.ok).reply = pre ++ to_email ++ post)
    ∧ (∀ msg, authErrorMsg ≠ genericErrLead ++ msg)
    ∧ authErrorMsg ≠ credsErrorMsg := by
  refine ⟨?_, ?_, ?_, ?_, ?_, authErrorMsg_ne_generic, ?_⟩
  · unfold send_email
    simp [hu, hp]
  · intro msg
    unfold send_email
    simp [hu, hp]
  · intro msg
    refine ⟨genericErrLead, "", ?_⟩
    unfold send_email
    simp [hu, hp]
  · unfold send_email
    simp [hu, hp]
  · refine ⟨successLead, "", ?_⟩
    unfold send_email
    simp [hu, hp]
  · decide

/-- Witness for C5: concrete credentials hit all three SMTP cases. -/
theorem send_email_smtp_outcomes_witness :
    (send_email (some toSample) (some pwSample) toSample subjSample bodySample none
        SmtpOutcome.authError).reply = authErrorMsg
    ∧ (send_email (some toSample) (some pwSample) toSample subjSample bodySample none
        (SmtpOutcome.otherError timeoutMsg)).reply = genericErrLead ++ timeoutMsg
    ∧ (send_email (some toSample) (some pwSample) toSample subjSample bodySample none
        SmtpOutcome.ok).reply = successLead ++ toSample :=
  ⟨(send_email_smtp_outcomes (some toSample) (some pwSample) toSample subjSample bodySample
      none rfl rfl).1,
   (send_email_smtp_outcomes (some toSample) (some pwSample) toSample subjSample bodySample
      none rfl rfl).2.1 timeoutMsg,
   (send_email_smtp_outcomes (some toSample) (some pwSample) toSample subjSample bodySample
      none rfl rfl).2.2.2.1⟩

/-- C3: `get_context` renders each record exposing a `memory` field as
a bullet line, newline-joined in exactly the order the backing service
returned (`renderMemories` equals the order-preserving join for every
result list, so there is no local re-sorting), returns exactly `""`
for an empty backing result set, and maps the two example records to
the example rendering. -/
theorem get_context_rendering :
    (∀ results, renderMemories results
        = String.intercalate newlineStr ((results.filterMap MemRecord.memory).map bulletLine))
    ∧ get_context (constClient (MemOutcome.ok [])) murphx none = ""
    ∧ get_context (constClient (MemOutcome.ok exampleRecords)) murphx none = exampleRendered := by
  refine ⟨?_, rfl, by decide⟩
  intro results
  cases results with
  | nil => rfl
  | cons r rs => rfl

/-- C4: whenever the chosen backing call raises, `get_context` catches
the exception and returns `""`; the model is a total function, so
`get_context` never raises to its caller. -/
theorem get_context_swallows_errors (client : MemClient) (user_id : String)
    (query : Option String) (msg : String)
    (h : performCall client (memCall user_id query) = MemOutcome.exn msg) :
    get_context client user_id query = "" := by
  unfold get_context
  rw [h]

/-- Witness for C4: a backing client whose every call raises yields `""`. -/
theorem get_context_swallows_errors_witness :
    get_context (constClient (MemOutcome.exn timeoutMsg)) murphx none = "" :=
  get_context_swallows_errors (constClient (MemOutcome.exn timeoutMsg)) murphx none
    timeoutMsg rfl

/-- C9 as stated is false: with the query present but empty, Python
`if query:` is falsy, so `get_context` performs `get_all`, not the
filtered similarity search the claim requires for every present
query. -/
theorem memCall_empty_query_counterexample :
    memCall murphx (some emptyQuery) = MemCall.get_all murphx
    ∧ memCall murphx (some emptyQuery) ≠ MemCall.search emptyQuery murphx := by
  exact ⟨rfl, by decide⟩

/-- C9 amended: whenever a non-empty query is present, `get_context`
performs the filtered similarity search scoped to the user identity
with that query; whenever the query is absent or empty, it fetches the
full memory set for the user identity. -/
theorem memCall_branches :
    (∀ (user_id q : String), q.isEmpty = false →
      memCall user_id (some q) = MemCall.search q user_id)
    ∧ (∀ user_id : String, memCall user_id none = MemCall.get_all user_id)
    ∧ (∀ (user_id q : String), q.isEmpty = true →
      memCall user_id (some q) = MemCall.get_all user_id) := by
  refine ⟨?_, fun _ => rfl, ?_⟩
  · intro user_id q h
    simp [memCall, h]
  · intro user_id q h
    simp [memCall, h]

/-- Witness for the amended C9: a non-empty query searches, an absent
or empty query fetches all. -/
theorem memCall_branches_witness :
    memCall murphx (some teaMemory) = MemCall.search teaMemory murphx
    ∧ memCall murphx none = MemCall.get_all murphx
    ∧ memCall murphx (some emptyQuery) = MemCall.get_all murphx :=
  ⟨memCall_branches.1 murphx teaMemory rfl,
   memCall_branches.2.1 murphx,
   memCall_branches.2.2 murphx emptyQuery rfl⟩

/-- C7: for every memory text, the assembled instruction string is the
structural concatenation of the static persona template, the labeled
memory-section header, and the memory text; the length identity shows
the assembly is pure concatenation losing and adding nothing, and the
model is a total function with no failure modes. -/
theorem combined_instructions_structure (past_context : String) :
    combined_instructions past_context
      = AGENT_INSTRUCTION ++ (pastContextHeader ++ past_context)
    ∧ (combined_instructions past_context).length
      = AGENT_INSTRUCTION.length + pastContextHeader.length + past_context.length := by
  constructor
  · unfold combined_instructions
    exact String.append_assoc AGENT_INSTRUCTION pastContextHeader past_context
  · unfold combined_instructions
    simp [String.length_append]

/-- Helper: the lock invariant holds initially. -/
theorem lockInv_init {n : Nat} (kinds : Fin n → ToolKind) : LockInv (initSystem kinds) := by
  intro i _ h
  exact absurd h (by simp [initSystem])

/-- Helper: every interleaving step preserves the lock invariant. -/
theorem lockInv_step {n : Nat} {s t : ToolSystem n} (hst : ToolStep s t) (hs : LockInv s) :
    LockInv t := by
  cases hst with
  | acquire i hk hp hfree =>
      intro j hj hjp
      dsimp only at hj hjp ⊢
      by_cases hji : j = i
      · subst hji
        rfl
      · rw [Function.update_noteq hji] at hj hjp
        have := hs j hj hjp
        rw [hfree] at this
        exact Option.noConfusion this
  | release i hk hp hown =>
      intro j hj hjp
      dsimp only at hj hjp ⊢
      by_cases hji : j = i
      · subst hji
        rw [Function.update_same] at hjp
        exact absurd hjp (by simp)
      · rw [Function.update_noteq hji] at hj hjp
        have := hs j hj hjp
        rw [hown] at this
        exact absurd (Option.some.inj this).symm hji
  | emailEnter i hk hp =>
      intro j hj hjp
      dsimp only at hj hjp ⊢
      by_cases hji : j = i
      · subst hji
        rw [Function.update_same] at hj
        rw [hk] at hj
        exact absurd hj (by simp [usesVoiceLock])
      · rw [Function.update_noteq hji] at hj hjp
        exact hs j hj hjp
  | emailExit i hk hp =>
      intro j hj hjp
      dsimp only at hj hjp ⊢
      by_cases hji : j = i
      · subst hji
        rw [Function.update_same] at hjp
        exact absurd hjp (by simp)
      · rw [Function.update_noteq hji] at hj hjp
        exact hs j hj hjp

/-- Helper: the lock invariant holds in every reachable state. -/
theorem lockInv_reachable {n : Nat} (kinds : Fin n → ToolKind) (s : ToolSystem n)
    (h : ToolReachable kinds s) : LockInv s := by
  induction h with
  | refl => exact lockInv_init kinds
  | tail _ hbc ih => exact lockInv_step hbc ih

/-- C8: in every reachable interleaving, at most one of the
lock-guarded tools (weather, search) is inside its network call — the
shared `voice_lock` strictly serializes them — while `send_email` is
not covered by the lock: a concrete reachable state of the
demonstration workload has a weather invocation and an email
invocation inside their network calls simultaneously. -/
theorem voice_lock_serialization :
    (∀ (n : Nat) (kinds : Fin n → ToolKind) (s : ToolSystem n), ToolReachable kinds s →
      ∀ i j : Fin n, usesVoiceLock (s.tasks i).kind = true → (s.tasks i).phase = Phase.inCall →
        usesVoiceLock (s.tasks j).kind = true → (s.tasks j).phase = Phase.inCall → i = j)
    ∧ (∃ s : ToolSystem 2, ToolReachable demoKinds s
        ∧ (s.tasks 0).kind = ToolKind.weather ∧ (s.tasks 0).phase = Phase.inCall
        ∧ (s.tasks 1).kind = ToolKind.email ∧ (s.tasks 1).phase = Phase.inCall) := by
  constructor
  · intro n kinds s hs i j hik hip hjk hjp
    have hinv := lockInv_reachable kinds s hs
    have hi := hinv i hik hip
    have hj := hinv j hjk hjp
    exact Option.some.inj (hi.symm.trans hj)
  · have h1 := ToolStep.acquire (initSystem demoKinds) (0 : Fin 2) (by decide) (by decide) rfl
    have h2 := ToolStep.emailEnter
      (⟨Function.update (initSystem demoKinds).tasks 0
          ⟨((initSystem demoKinds).tasks 0).kind, Phase.inCall⟩, some 0⟩ : ToolSystem 2)
      (1 : Fin 2) (by decide) (by decide)
    exact ⟨_, Relation.ReflTransGen.tail (Relation.ReflTransGen.single h1) h2,
      by decide, by decide, by decide, by decide⟩

/-- Witness for C8: the serialization theorem applied to the concrete
reachable state in which the weather task holds the lock. -/
theorem voice_lock_serialization_witness : (0 : Fin 2) = 0 :=
  voice_lock_serialization.1 2 demoKinds
    ⟨Function.update (initSystem demoKinds).tasks 0
        ⟨((initSystem demoKinds).tasks 0).kind, Phase.inCall⟩, some 0⟩
    (Relation.ReflTransGen.single
      (ToolStep.acquire (initSystem demoKinds) (0 : Fin 2) (by decide) (by decide) rfl))
    0 0 (by decide) (by decide) (by decide) (by decide)
